import Mathlib

/-!
Verification of the AI-TravelPlanner repository against its specification.

The repository ships the React frontend (TripPlanner, TripResults,
Dashboard components) together with a README describing a Python backend
(task gateway, orchestrator, budget reconciler).  The backend sources are
not part of the checked-in tree, so backend behaviour is modelled from the
specification where a claim depends on it; every such definition carries a
doc comment starting with `Modelled from the spec:`.  All
frontend behaviour is embedded directly from the JavaScript sources.

Money amounts are modelled in currency minor units (cents) as `Int`.
Calendar dates are modelled as day numbers (`Nat`).
-/

/-- Budget status enum of the budget reconciler (spec section 4.5). -/
inductive BudgetStatus
  | within_budget
  | over_budget
  deriving DecidableEq, Repr

/-- Accommodation style enum, mirroring the select options in
`TripPlanner` (`accommodationOptions`: budget, moderate, luxury). -/
inductive AccommodationStyle
  | budget
  | moderate
  | luxury
  deriving DecidableEq, Repr

/-- One ranked budget recommendation: the message rendered by
`TripResults` (`rec.message`) plus its estimated savings in cents. -/
structure BudgetRec where
  message : String
  savings : Int
  deriving DecidableEq, Repr

/-- The five-category cost breakdown of the budget reconciler
(spec section 4.5): flights, hotels, activities, food, transport. -/
structure CostBreakdown where
  flights : Int
  hotels : Int
  activities : Int
  food : Int
  transport : Int
  deriving DecidableEq, Repr

/-- The serialized category map, in the fixed order the breakdown
carries its five categories. -/
def categoryList (c : CostBreakdown) : List (String × Int) :=
  [("flights", c.flights), ("hotels", c.hotels), ("activities", c.activities),
   ("food", c.food), ("transport", c.transport)]

/-- Modelled from the spec: `total_cost` is the sum of the five categories
(spec section 4.5); the budget reconciler itself is backend code absent
from the checked-in tree. -/
def totalCost (c : CostBreakdown) : Int :=
  c.flights + c.hotels + c.activities + c.food + c.transport

/-- Budget summary as rendered by `TripResults`
(`budget_analysis.summary`): categories, total cost, remaining, status. -/
structure BudgetSummary where
  categories : List (String × Int)
  total_cost : Int
  budget_remaining : Int
  status : BudgetStatus
  deriving DecidableEq, Repr

/-- Modelled from the spec: the summary part of the budget reconciler
(spec section 4.5) — `budget_remaining = budget − total_cost`,
`within_budget` iff the remainder is nonnegative; backend code absent
from the checked-in tree. -/
def reconcileBudget (budget : Int) (c : CostBreakdown) : BudgetSummary :=
  let total := totalCost c
  { categories := categoryList c
    total_cost := total
    budget_remaining := budget - total
    status := if 0 ≤ budget - total then .within_budget else .over_budget }

/-- Descending-savings ordering on recommendations: `recGE a b` holds when
`a`'s estimated savings are at least `b`'s. -/
def recGE (a b : BudgetRec) : Prop := b.savings ≤ a.savings

instance : DecidableRel recGE :=
  fun a b => inferInstanceAs (Decidable (b.savings ≤ a.savings))

instance : IsTotal BudgetRec recGE :=
  ⟨fun a b => le_total b.savings a.savings⟩

instance : IsTrans BudgetRec recGE :=
  ⟨fun _ _ _ h₁ h₂ => le_trans h₂ h₁⟩

/-- Modelled from the spec: candidate cost-reduction recommendations in
the fixed priority order of spec section 4.5 — accommodation downgrade
when the style is not already `budget`, then reducing discretionary
activity count, then a cheaper dining preference.  The savings weightings
(30% of hotels, 25% of activities, 20% of food) are an implementation
choice the spec leaves open; backend code absent from the checked-in
tree. -/
def candidateRecs (style : AccommodationStyle) (c : CostBreakdown) : List BudgetRec :=
  (if style = .budget then []
   else [⟨"Consider downgrading your accommodation style", c.hotels * 30 / 100⟩]) ++
  [⟨"Consider reducing the number of planned activities", c.activities * 25 / 100⟩,
   ⟨"Consider a cheaper dining preference", c.food * 20 / 100⟩]

/-- Rank recommendations by estimated savings, descending. -/
def rankRecs (l : List BudgetRec) : List BudgetRec :=
  List.insertionSort recGE l

/-- Budget reconciler output: summary plus ranked recommendations, as
consumed by `TripResults` (`budget_analysis`). -/
structure BudgetResult where
  summary : BudgetSummary
  recommendations : List BudgetRec
  deriving DecidableEq, Repr

/-- Modelled from the spec: the full budget reconciler (spec section 4.5).
Recommendations are generated only in the `over_budget` case, ranked by
potential savings descending; the generation is a pure function of its
inputs.  Backend code absent from the checked-in tree. -/
def budgetReconcile (budget : Int) (style : AccommodationStyle) (c : CostBreakdown) :
    BudgetResult :=
  { summary := reconcileBudget budget c
    recommendations :=
      if (reconcileBudget budget c).status = .over_budget
      then rankRecs (candidateRecs style c) else [] }

/-- The trip plan as consumed by the frontend results page: destination
and date echo plus the budget analysis (the slice of `TripPlan` the
claims under scrutiny touch). -/
structure TripPlan where
  trip_id : String
  destination : String
  start_date : String
  end_date : String
  budget_analysis : BudgetResult
  deriving DecidableEq, Repr

/-- Modelled from the spec: the final aggregation step (spec section 4.4,
`aggregating → completed`) assembles the `TripPlan`, installing the
budget reconciler's output as `budget_analysis`; backend code absent from
the checked-in tree. -/
def assembleTripPlan (tripId destination startDate endDate : String)
    (budget : Int) (style : AccommodationStyle) (c : CostBreakdown) : TripPlan :=
  { trip_id := tripId
    destination := destination
    start_date := startDate
    end_date := endDate
    budget_analysis := budgetReconcile budget style c }

/-- Task status enum of the task store (spec section 6). -/
inductive TaskStatus
  | pending
  | running
  | completed
  | failed
  deriving DecidableEq, Repr

/-- String rendering of a task status, as it appears on the wire. -/
def taskStatusString : TaskStatus → String
  | .pending => "pending"
  | .running => "running"
  | .completed => "completed"
  | .failed => "failed"

/-- Validated trip request constructed by the submission boundary
(spec section 3): dates as day numbers, budget in cents. -/
structure TripRequest where
  destination : String
  start_date : Nat
  end_date : Nat
  budget : Int
  deriving DecidableEq, Repr

/-- A task record of the task store (spec section 3): owning request,
status, final plan (present only once completed), error detail (present
only when failed). -/
structure TaskRecord where
  request : TripRequest
  status : TaskStatus
  plan : Option TripPlan
  errMsg : Option String
  deriving DecidableEq, Repr

/-- Well-formedness of a task record per spec section 3: the final plan
is present when the status is `completed`, and error detail is present
when the status is `failed`. -/
def TaskRecord.WF (t : TaskRecord) : Prop :=
  (t.status = .completed → t.plan.isSome) ∧ (t.status = .failed → t.errMsg.isSome)

/-- Wire shape of the status lookup response
(`GET /api/trip-status/:id`). -/
structure StatusResponse where
  status : String
  result : Option TripPlan
  error : Option String
  deriving DecidableEq, Repr

/-- Modelled from the spec: the backend status-lookup endpoint (spec
section 6) — `result` accompanies only a completed task, `error` only a
failed one; backend code absent from the checked-in tree. -/
def statusLookup (t : TaskRecord) : StatusResponse :=
  { status := taskStatusString t.status
    result := if t.status = .completed then t.plan else none
    error := if t.status = .failed then t.errMsg else none }

/-- Outcome of the results page's status fetch: either trip data was
stored for rendering, or an error message was stored. -/
inductive FetchOutcome
  | loaded (p : Option TripPlan)
  | errorMsg (s : String)
  deriving DecidableEq, Repr

/-- Embedded from `TripResults.fetchTripData` (src/unnamed/part_001,
lines 16–30): the result is consumed only when the looked-up status is
the string `"completed"`; otherwise an error message is stored. -/
def fetchTripData (r : StatusResponse) : FetchOutcome :=
  if r.status = "completed" then .loaded r.result
  else .errorMsg "Trip data not found or still processing"

/-- Wire shape of the trip submission response as the client reads it
(`response.data` in `TripPlanner.handleSubmit`): an optional status
discriminator, an optional result, an optional task id. -/
structure PlanTripResponse where
  status : Option String
  result : Option TripPlan
  task_id : Option String
  deriving DecidableEq, Repr

/-- Modelled from the spec: submission responses take exactly one of two
shapes (spec section 6) — `{status: "completed", result}` or
`{status: "processing", task_id}`; the backend emitting them is absent
from the checked-in tree. -/
def wellFormedResponse (r : PlanTripResponse) : Prop :=
  (r.status = some "completed" ∧ r.result.isSome ∧ r.task_id = none) ∨
  (r.status = some "processing" ∧ r.result = none ∧ r.task_id.isSome)

/-- The mode the submitting client selects from a response. -/
inductive ClientAction
  | navigateSync (plan : TripPlan)
  | startPolling (taskId : String)
  | throwUnexpected
  deriving DecidableEq, Repr

/-- Embedded from `TripPlanner.handleSubmit` (src/unnamed/part_002,
lines 101–137): first branch fires when `status === 'completed'` and a
result is present; otherwise the second branch fires whenever a
`task_id` is present; otherwise an "Unexpected response format" error is
thrown. -/
def handleSubmitDispatch (r : PlanTripResponse) : ClientAction :=
  if h : r.status = some "completed" ∧ r.result.isSome then
    .navigateSync (r.result.get h.2)
  else
    match r.task_id with
    | some t => .startPolling t
    | none => .throwUnexpected

/-- What one poll of the status endpoint can observe inside the client's
interval callback: a status string, or a thrown request error. -/
inductive PollObs
  | status (s : String)
  | err
  deriving DecidableEq, Repr

/-- What the interval callback does after one observation. -/
inductive PollAction
  | stopNavigate
  | stopAlertFailed
  | stopError
  | keepPolling
  deriving DecidableEq, Repr

/-- The polling interval passed to `setInterval` in
`TripPlanner.handleSubmit` (src/unnamed/part_002, line 134), in
milliseconds. -/
def pollIntervalMs : Nat := 2000

/-- Embedded from the interval callback of `TripPlanner.handleSubmit`
(src/unnamed/part_002, lines 114–134): `completed` clears the interval
and navigates, `failed` clears it and alerts, a thrown lookup error
clears it, and any other status keeps polling. -/
def pollStep : PollObs → PollAction
  | .status s =>
      if s = "completed" then .stopNavigate
      else if s = "failed" then .stopAlertFailed
      else .keepPolling
  | .err => .stopError

/-- Whether an action clears the interval (stops the loop). -/
def stops : PollAction → Bool
  | .keepPolling => false
  | _ => true

/-- Number of polls the loop issues over a trace of observations: each
observation costs one poll, and the loop goes on only while the step
keeps polling. -/
def pollsIssued : List PollObs → Nat
  | [] => 0
  | o :: os => if stops (pollStep o) then 1 else 1 + pollsIssued os

/-- Raw submission payload as seen by the submission boundary before
validation: each required field either absent/malformed (`none`) or
parsed. -/
structure RawPayload where
  destination : Option String
  start_date : Option Nat
  end_date : Option Nat
  budget : Option Int
  deriving DecidableEq, Repr

/-- Decidable rejection condition of the submission boundary:
destination, start date, end date or budget missing or malformed, or an
empty destination, or `start_date ≥ end_date`, or `budget ≤ 0`. -/
def payloadInvalidB (p : RawPayload) : Bool :=
  p.destination.isNone || decide (p.destination = some "") ||
  p.start_date.isNone || p.end_date.isNone || p.budget.isNone ||
  (match p.start_date, p.end_date with
   | some s, some e => decide (e ≤ s)
   | _, _ => false) ||
  (match p.budget with
   | some b => decide (b ≤ 0)
   | none => false)

/-- Error taxonomy entry raised by the submission boundary. -/
inductive SubmitError
  | validationError
  deriving DecidableEq, Repr

/-- Modelled from the spec: validation at the task gateway (spec section
4.1) — fails with `ValidationError` when destination, start_date,
end_date or budget is missing or malformed, when `start_date ≥
end_date`, or when `budget ≤ 0`; backend code absent from the checked-in
tree. -/
def validatePayload (p : RawPayload) : Except SubmitError TripRequest :=
  match p.destination, p.start_date, p.end_date, p.budget with
  | some d, some s, some e, some b =>
      if d = "" then .error .validationError
      else if e ≤ s then .error .validationError
      else if b ≤ 0 then .error .validationError
      else .ok ⟨d, s, e, b⟩
  | _, _, _, _ => .error .validationError

/-- Outcome of a submission at the gateway. -/
inductive SubmitOutcome
  | rejected (e : SubmitError)
  | accepted (taskId : Nat)
  deriving DecidableEq, Repr

/-- The task store: task records keyed by numeric id. -/
abbrev TaskStore := List (Nat × TaskRecord)

/-- Modelled from the spec: the task gateway (spec section 4.1) —
validation happens first; only a payload that passes creates a pending
`TaskRecord` in the store, while a rejected payload leaves the store
untouched; backend code absent from the checked-in tree. -/
def submitTrip (p : RawPayload) (store : TaskStore) : SubmitOutcome × TaskStore :=
  match validatePayload p with
  | .error e => (.rejected e, store)
  | .ok req =>
      (.accepted store.length,
       (store.length, { request := req, status := .pending, plan := none, errMsg := none }) :: store)

/-- Embedded from `TripPlanner.handleSubmit` (src/unnamed/part_002,
line 82): `origin: formData.origin || 'NYC'` — an absent or empty origin
falls back to the constant `"NYC"`, any other origin passes through. -/
def resolveOrigin : Option String → String
  | none => "NYC"
  | some s => if s = "" then "NYC" else s

/-- Embedded from `TripResults` (src/unnamed/part_001, lines 114, 148,
253 and 292): each list is rendered through `.slice(0, 3)`, i.e. only
its first three entries, leaving the list itself untouched. -/
def displayedList {α : Type} (l : List α) : List α := l.take 3

/-- A concrete cost breakdown used to instantiate theorems on sample
data (amounts in cents). -/
def sampleBreakdown : CostBreakdown := ⟨50000, 40000, 20000, 15000, 5000⟩

/-- A concrete trip plan on sample data. -/
def samplePlan : TripPlan :=
  assembleTripPlan "trip-1" "Rome" "2024-06-01" "2024-06-05" 150000 .moderate sampleBreakdown

/-- A concrete completed task record holding the sample plan. -/
def sampleCompletedTask : TaskRecord :=
  { request := ⟨"Rome", 10, 14, 150000⟩
    status := .completed
    plan := some samplePlan
    errMsg := none }

/-- C1: for every completed trip plan assembled by the aggregation step,
the budget-analysis cost breakdown carries exactly the five categories
flights, hotels, activities, food and transport, and `total_cost` equals
the exact sum of those five category costs. -/
theorem C1_breakdown_five_categories_sum (tripId dest sd ed : String)
    (budget : Int) (style : AccommodationStyle) (c : CostBreakdown) :
    ((assembleTripPlan tripId dest sd ed budget style c).budget_analysis.summary.categories.map
        Prod.fst = ["flights", "hotels", "activities", "food", "transport"]) ∧
    (assembleTripPlan tripId dest sd ed budget style c).budget_analysis.summary.total_cost =
      (((assembleTripPlan tripId dest sd ed budget style c).budget_analysis.summary.categories.map
        Prod.snd).sum) := by
  constructor
  · simp [assembleTripPlan, budgetReconcile, reconcileBudget, categoryList]
  · simp [assembleTripPlan, budgetReconcile, reconcileBudget, categoryList, totalCost]
    ring

/-- C6: for every budget summary the reconciler produces,
`budget_remaining` equals `budget − total_cost`, and the status is
`within_budget` exactly when the remainder is nonnegative, `over_budget`
exactly when it is negative. -/
theorem C6_budget_remaining_status (budget : Int) (c : CostBreakdown) :
    (reconcileBudget budget c).budget_remaining =
        budget - (reconcileBudget budget c).total_cost ∧
    ((reconcileBudget budget c).status = .within_budget ↔
        0 ≤ (reconcileBudget budget c).budget_remaining) ∧
    ((reconcileBudget budget c).status = .over_budget ↔
        (reconcileBudget budget c).budget_remaining < 0) := by
  unfold reconcileBudget
  by_cases h : 0 ≤ budget - totalCost c <;> simp [h] <;> omega

/-- C8: in the submitted trip request, an absent or empty origin is
replaced by the single constant fallback `"NYC"`, while any non-empty
origin passes through unchanged (`origin: formData.origin || 'NYC'`). -/
theorem C8_origin_fallback :
    (∀ o : Option String, (o = none ∨ o = some "") → resolveOrigin o = "NYC") ∧
    (∀ s : String, s ≠ "" → resolveOrigin (some s) = s) := by
  constructor
  · rintro o (rfl | rfl) <;> rfl
  · intro s hs
    simp [resolveOrigin, hs]

/-- Witness for C8 at the concrete origins `none` and `"Boston"`. -/
theorem C8_origin_fallback_witness :
    resolveOrigin none = "NYC" ∧ resolveOrigin (some "Boston") = "Boston" :=
  ⟨C8_origin_fallback.1 none (Or.inl rfl),
   C8_origin_fallback.2 "Boston" (by decide)⟩

/-- C9: each list rendered through `.slice(0, 3)` shows at most its
first three entries — the displayed list is a prefix of the underlying
list of length `min 3 n`, and the underlying list is left intact (the
displayed list merely extends to it). -/
theorem C9_display_limits {α : Type} (l : List α) :
    (displayedList l).length ≤ 3 ∧
    displayedList l <+: l ∧
    (l.length ≤ 3 → displayedList l = l) ∧
    (3 ≤ l.length → (displayedList l).length = 3) := by
  refine ⟨?_, ⟨l.drop 3, List.take_append_drop 3 l⟩, ?_, ?_⟩
  · simp [displayedList]
  · intro h
    simp [displayedList, List.take_of_length_le h]
  · intro h
    simp [displayedList]
    omega

/-- Witness for C9 on concrete four-element and two-element lists. -/
theorem C9_display_limits_witness :
    (displayedList [1, 2, 3, 4]).length ≤ 3 ∧
    displayedList [1, 2, 3, 4] <+: [1, 2, 3, 4] ∧
    displayedList ([1, 2] : List Nat) = [1, 2] ∧
    (displayedList ([1, 2, 3, 4] : List Nat)).length = 3 :=
  ⟨(C9_display_limits [1, 2, 3, 4]).1,
   (C9_display_limits [1, 2, 3, 4]).2.1,
   (C9_display_limits [1, 2]).2.2.1 (by decide),
   (C9_display_limits [1, 2, 3, 4]).2.2.2 (by decide)⟩

/-- C5: in a status-lookup response, `result` is present iff the task
status is `completed` and `error` is present iff it is `failed` (for
well-formed task records), and the results page consumes `result` only
when the looked-up status is `completed`. -/
theorem C5_result_iff_completed (t : TaskRecord) (h : t.WF) :
    ((statusLookup t).result.isSome ↔ t.status = .completed) ∧
    ((statusLookup t).error.isSome ↔ t.status = .failed) ∧
    (∀ (r : StatusResponse) (p : Option TripPlan),
        fetchTripData r = .loaded p → r.status = "completed") := by
  refine ⟨?_, ?_, ?_⟩
  · unfold statusLookup
    by_cases hc : t.status = .completed
    · simp [hc, h.1 hc]
    · simp [hc]
  · unfold statusLookup
    by_cases hf : t.status = .failed
    · simp [hf, h.2 hf]
    · simp [hf]
  · intro r p hr
    unfold fetchTripData at hr
    by_cases hc : r.status = "completed"
    · exact hc
    · simp [hc] at hr

/-- Witness for C5 at the concrete completed sample task. -/
theorem C5_result_iff_completed_witness :
    ((statusLookup sampleCompletedTask).result.isSome ↔
        sampleCompletedTask.status = .completed) ∧
    ((statusLookup sampleCompletedTask).error.isSome ↔
        sampleCompletedTask.status = .failed) ∧
    (∀ (r : StatusResponse) (p : Option TripPlan),
        fetchTripData r = .loaded p → r.status = "completed") :=
  C5_result_iff_completed sampleCompletedTask ⟨fun _ => rfl, fun hf => nomatch hf⟩

/-- C2 (counterexample to the claim as stated): the submitting client
does not branch on the `status` field before using `task_id` — on a
response whose status is `"failed"` but which carries a `task_id`, the
client still enters the polling mode, inferring the asynchronous mode
from the presence of `task_id` alone. -/
theorem C2_counterexample :
    handleSubmitDispatch ⟨some "failed", none, some "task-42"⟩ =
        .startPolling "task-42" ∧
    (⟨some "failed", none, some "task-42"⟩ : PlanTripResponse).status ≠
        some "processing" := by
  constructor
  · rfl
  · decide

/-- C2 (amended): the client uses `result` only after the
`status = "completed"` check succeeds with a result present; it enters
the polling mode exactly when that check fails and a `task_id` is
present (shape-based, not status-based); on the two spec-shaped
responses this routes each shape to its intended mode. -/
theorem C2_status_discriminator :
    (∀ (r : PlanTripResponse) (p : TripPlan),
        handleSubmitDispatch r = .navigateSync p →
          r.status = some "completed" ∧ r.result = some p) ∧
    (∀ (r : PlanTripResponse) (t : String),
        handleSubmitDispatch r = .startPolling t →
          r.task_id = some t ∧ ¬(r.status = some "completed" ∧ r.result.isSome)) ∧
    (∀ r : PlanTripResponse, wellFormedResponse r →
        ((r.status = some "completed" →
            ∃ p, handleSubmitDispatch r = .navigateSync p) ∧
         (r.status = some "processing" →
            ∃ t, handleSubmitDispatch r = .startPolling t))) := by
  refine ⟨?_, ?_, ?_⟩
  · intro r p h
    unfold handleSubmitDispatch at h
    split at h
    · rename_i hpos
      refine ⟨hpos.1, ?_⟩
      have := (ClientAction.navigateSync.injEq _ _).mp h
      rw [← this]
      exact (Option.some_get hpos.2).symm
    · rename_i hneg
      cases htid : r.task_id <;> rw [htid] at h <;> simp at h
  · intro r t h
    unfold handleSubmitDispatch at h
    split at h
    · simp at h
    · rename_i hneg
      cases htid : r.task_id with
      | none =>
          rw [htid] at h
          simp at h
      | some t' =>
          rw [htid] at h
          simp at h
          subst h
          exact ⟨rfl, hneg⟩
  · intro r hwf
    rcases hwf with ⟨h1, h2, _⟩ | ⟨h1, h2, h3⟩
    · constructor
      · intro _
        refine ⟨r.result.get h2, ?_⟩
        unfold handleSubmitDispatch
        rw [dif_pos ⟨h1, h2⟩]
      · intro hp
        rw [h1] at hp
        exact absurd (Option.some.inj hp) (by decide)
    · constructor
      · intro hc
        rw [h1] at hc
        exact absurd (Option.some.inj hc) (by decide)
      · intro _
        obtain ⟨t, ht⟩ := Option.isSome_iff_exists.mp h3
        refine ⟨t, ?_⟩
        unfold handleSubmitDispatch
        rw [dif_neg, ht]
        rintro ⟨hc, _⟩
        rw [h1] at hc
        exact absurd (Option.some.inj hc) (by decide)

/-- Witness for C2 (amended) at a concrete spec-shaped asynchronous
response: the client selects the polling mode for it. -/
theorem C2_status_discriminator_witness :
    ∃ t, handleSubmitDispatch ⟨some "processing", none, some "task-7"⟩ =
        .startPolling t :=
  (C2_status_discriminator.2.2 ⟨some "processing", none, some "task-7"⟩
      (Or.inr ⟨rfl, rfl, rfl⟩)).2 rfl

/-- C4: every raw submission payload with a missing or malformed
destination, start date, end date or budget, or with
`start_date ≥ end_date`, or with `budget ≤ 0`, is rejected by the task
gateway with a `ValidationError`, and the task store is left exactly as
it was — no task record is created. -/
theorem C4_validation_rejects_before_task (p : RawPayload) (store : TaskStore)
    (h : payloadInvalidB p = true) :
    (submitTrip p store).1 = .rejected .validationError ∧
    (submitTrip p store).2 = store := by
  have hv : validatePayload p = .error .validationError := by
    obtain ⟨d, s, e, b⟩ := p
    cases d
    case none => rfl
    case some d =>
    cases s
    case none => rfl
    case some s =>
    cases e
    case none => rfl
    case some e =>
    cases b
    case none => rfl
    case some b =>
    simp only [payloadInvalidB, Option.isNone_some, Bool.false_or, Bool.or_false,
      Option.some.injEq, Bool.or_eq_true, decide_eq_true_eq] at h
    simp only [validatePayload]
    rcases h with (hd | hse) | hb
    · rw [if_pos hd]
    · by_cases hd : d = ""
      · rw [if_pos hd]
      · rw [if_neg hd, if_pos hse]
    · by_cases hd : d = ""
      · rw [if_pos hd]
      · rw [if_neg hd]
        by_cases hse : e ≤ s
        · rw [if_pos hse]
        · rw [if_neg hse, if_pos hb]
  unfold submitTrip
  rw [hv]
  exact ⟨rfl, rfl⟩

/-- Witness for C4 at a concrete payload with `start_date ≥ end_date`. -/
theorem C4_validation_witness :
    (submitTrip ⟨some "Rome", some 14, some 10, some 150000⟩ []).1 =
        .rejected .validationError ∧
    (submitTrip ⟨some "Rome", some 14, some 10, some 150000⟩ []).2 = [] :=
  C4_validation_rejects_before_task ⟨some "Rome", some 14, some 10, some 150000⟩ []
    (by decide)

/-- C7: whenever the reconciled budget status is `over_budget`, the
generated recommendation list is non-empty and ordered by decreasing
estimated savings (candidates are produced in the fixed priority order
accommodation → activities → dining and then ranked), and generation is
deterministic — equal inputs yield equal recommendations. -/
theorem C7_over_budget_recommendations (budget : Int) (style : AccommodationStyle)
    (c : CostBreakdown)
    (h : (budgetReconcile budget style c).summary.status = .over_budget) :
    (budgetReconcile budget style c).recommendations ≠ [] ∧
    List.Sorted recGE (budgetReconcile budget style c).recommendations ∧
    (∀ (budget' : Int) (style' : AccommodationStyle) (c' : CostBreakdown),
        budget = budget' → style = style' → c = c' →
        (budgetReconcile budget style c).recommendations =
          (budgetReconcile budget' style' c').recommendations) := by
  have hs : (reconcileBudget budget c).status = .over_budget := h
  have hrec : (budgetReconcile budget style c).recommendations =
      rankRecs (candidateRecs style c) := by
    show (if (reconcileBudget budget c).status = .over_budget
          then rankRecs (candidateRecs style c) else []) = _
    rw [if_pos hs]
  have hlen : (rankRecs (candidateRecs style c)).length =
      (candidateRecs style c).length :=
    (List.perm_insertionSort recGE _).length_eq
  have hpos : 0 < (candidateRecs style c).length := by
    unfold candidateRecs
    by_cases hb : style = .budget <;> simp [hb]
  refine ⟨?_, ?_, ?_⟩
  · rw [hrec]
    exact List.length_pos.mp (by rw [hlen]; exact hpos)
  · rw [hrec]
    exact List.sorted_insertionSort recGE _
  · rintro budget' style' c' rfl rfl rfl
    rfl

/-- Witness for C7 at a concrete over-budget input: budget of 100 cents
against 130000 cents of costs. -/
theorem C7_over_budget_witness :
    (budgetReconcile 100 .moderate sampleBreakdown).recommendations ≠ [] ∧
    List.Sorted recGE (budgetReconcile 100 .moderate sampleBreakdown).recommendations :=
  ⟨(C7_over_budget_recommendations 100 .moderate sampleBreakdown (by decide)).1,
   (C7_over_budget_recommendations 100 .moderate sampleBreakdown (by decide)).2.1⟩

/-- The loop issues one poll per observation while nothing stops it: on a
trace of `n` consecutive `"running"` statuses it issues exactly `n`
polls without stopping. -/
theorem pollsIssued_replicate_running (n : Nat) :
    pollsIssued (List.replicate n (PollObs.status "running")) = n := by
  induction n with
  | zero => rfl
  | succ k ih =>
      have hstep : stops (pollStep (.status "running")) = false := by decide
      simp only [List.replicate_succ, pollsIssued, hstep, Bool.false_eq_true,
        if_false, ih]
      omega

/-- C3 (counterexample to the claim as stated): the polling loop has no
bounded retry count — no bound `B` caps the number of polls it issues,
since a trace of `B + 1` consecutive `"running"` statuses makes it poll
`B + 1` times without stopping; the code carries no deadline or attempt
counter. -/
theorem C3_counterexample :
    ¬ ∃ B : Nat, ∀ n : Nat,
        pollsIssued (List.replicate n (PollObs.status "running")) ≤ B := by
  rintro ⟨B, hB⟩
  have hb := hB (B + 1)
  rw [pollsIssued_replicate_running] at hb
  omega

/-- C3 (amended): the polling loop polls at the fixed 2000 ms interval,
stops when the observed status is `completed`, stops when it is
`failed`, and keeps polling on any other status; it carries no retry
bound. -/
theorem C3_polling_discipline :
    pollIntervalMs = 2000 ∧
    pollStep (.status "completed") = .stopNavigate ∧
    pollStep (.status "failed") = .stopAlertFailed ∧
    (∀ s : String, s ≠ "completed" → s ≠ "failed" →
        pollStep (.status s) = .keepPolling) := by
  refine ⟨rfl, by decide, by decide, ?_⟩
  intro s h1 h2
  simp [pollStep, h1, h2]

/-- Witness for C3 (amended) at the concrete non-terminal status
`"running"`. -/
theorem C3_polling_discipline_witness :
    pollStep (.status "running") = .keepPolling :=
  C3_polling_discipline.2.2.2 "running" (by decide) (by decide)

/-- C10: the polling loop stops exactly on the three conditions — status
`completed`, status `failed`, or a thrown lookup error — and once an
error observation is reached, the number of polls issued is fixed by the
trace up to it: whatever follows the error is never requested, so a
transient lookup failure permanently abandons the task. -/
theorem C10_poll_stop_conditions :
    (∀ o : PollObs, stops (pollStep o) = true ↔
        (o = .status "completed" ∨ o = .status "failed" ∨ o = .err)) ∧
    (∀ pre post : List PollObs,
        (∀ o ∈ pre, stops (pollStep o) = false) →
        pollsIssued (pre ++ .err :: post) = pre.length + 1) := by
  constructor
  · intro o
    cases o with
    | status s =>
        by_cases h1 : s = "completed"
        · subst h1
          simp [pollStep, stops]
        · by_cases h2 : s = "failed" <;> simp [pollStep, stops, h1, h2]
    | err => simp [pollStep, stops]
  · intro pre post hpre
    induction pre with
    | nil => simp [pollsIssued, pollStep, stops]
    | cons o os ih =>
        have ho := hpre o (by simp)
        have hrest := ih (fun x hx => hpre x (by simp [hx]))
        simp only [List.cons_append, pollsIssued]
        rw [if_neg (by rw [ho]; exact Bool.false_ne_true)]
        rw [show os.append (PollObs.err :: post) = os ++ PollObs.err :: post from rfl,
          hrest, List.length_cons]
        omega

/-- Witness for C10: a trace that keeps running once, then throws — the
loop issues exactly two polls, never reaching the completed status that
follows the error. -/
theorem C10_poll_stop_witness :
    pollsIssued [PollObs.status "running", PollObs.err, PollObs.status "completed"] = 2 :=
  C10_poll_stop_conditions.2 [PollObs.status "running"] [PollObs.status "completed"]
    (by decide)
